import Mathlib

/-!
Shallow embedding of `mmaction2_stats.py`: the acquisition-and-classification
pipeline for conference-paper PDFs.  Python text is modelled as `List Char`
(`str.lower` as a character map, `in` as substring search), exceptions as
`Except`, the filesystem and the network as boolean oracles.
-/

/-! ### Python string primitives -/

/-- Boolean test that `pre` is an initial segment of `s`
(Python `s.startswith(pre)` reads this way). -/
def matchesAt : List Char → List Char → Bool
  | [], _ => true
  | _ :: _, [] => false
  | a :: as, b :: bs => a == b && matchesAt as bs

/-- Python `needle in hay`: `needle` occurs as a contiguous substring of `hay`
(the empty needle occurs in every string). -/
def containsSub (needle : List Char) : List Char → Bool
  | [] => matchesAt needle []
  | c :: rest => matchesAt needle (c :: rest) || containsSub needle rest

/-- Python `s.lower()` restricted to the ASCII texts the program handles:
a character-wise lower-casing. -/
def pyLower (s : List Char) : List Char := s.map Char.toLower

/-- Python `title.replace("/", " ")` for the single-character pattern used in
`load_paper_info` (line 61): a character-wise replacement. -/
def replaceSlash : List Char → List Char
  | [] => []
  | c :: r => (if c == '/' then ' ' else c) :: replaceSlash r

/-- POSIX `os.path.join(a, b)`: an absolute second component discards the
first, otherwise the parts are glued with a single separator. -/
def ospJoin (a b : List Char) : List Char :=
  if b.head? == some '/' then b
  else if a = [] || a.getLast? == some '/' then a ++ b
  else a ++ '/' :: b

/-! ### Data model: `paper_info` (mmaction2_stats.py lines 17-26) -/

/-- The `paper_info` dataclass.  `load_paper_info` always fills `year`
(CSV value or the literal default 2023) before it is used, so it is kept
here as the string it is formatted to on line 60; `pdf_path` is not stored
but derived (see `pdf_path` below), exactly as lines 59-61 always overwrite
it from (conference, year, title). -/
structure paper_info where
  title : String
  conference : String
  authors : String
  year : String
  abstract : Option String := none
  pdf_url : Option String := none
  code_url : Option String := none
deriving DecidableEq

/-- Derived local path of a paper, from `load_paper_info` lines 59-61:
`osp.join('data', f'{conference}{year}', f'{title.replace("/", " ")}.pdf')`. -/
def pdf_path (p : paper_info) : List Char :=
  ospJoin (ospJoin "data".data (p.conference.data ++ p.year.data))
    (replaceSlash p.title.data ++ ".pdf".data)

/-! ### RelevanceClassifier: `_valid` inside `main` (lines 160-221) -/

/-- Strong-positive keywords, lines 162-188.  In the Python source several
adjacent string literals are not separated by commas, so the interpreter
concatenates them into single keywords; this list holds the effective
values of the literal as Python evaluates it. -/
def strong_pos_kws : List String := [
  "action detection",
  "action detector",
  "action recognition",
  "action localization",
  "video understanding",
  "video recognition",
  "video retrieval",
  "action quality assessmentkinetics-400",
  "kinetics 400",
  "kinetics400",
  "k400kinetics-600",
  "kinetics 600",
  "k600kinetics600",
  "kinetics-700",
  "kinetics 700",
  "kinetics700",
  "something-somethingsomething somethingvideo representation",
  "video grounding"]

/-- Weak-positive keywords, lines 190-194. -/
def pos_kws : List String := [
  "spatio-temporal",
  "spatial-temporal",
  "spatiotemporal"]

/-- Negative keywords, lines 196-202. -/
def neg_kws : List String := [
  "diffraction", "action prediction", "interaction",
  "object detection", "object tracking", "distraction", "extraction",
  "action assessment", "motion prediction", "reinforcement learning",
  "segmentation", "point cloud", "abstraction",
  "action unit recognition"]

/-- Text the classifier scans, lines 204-207: lower-cased title, with the
lower-cased abstract appended after a space when the abstract is a string. -/
def validText (p : paper_info) : List Char :=
  match p.abstract with
  | none => pyLower p.title.data
  | some a => pyLower p.title.data ++ ' ' :: pyLower a.data

/-- Tier cascade of `_valid`, lines 209-221: strong positives first, then
negatives, then weak positives, else false. -/
def classifyText (text : List Char) : Bool :=
  if strong_pos_kws.any (fun kw => containsSub kw.data text) then true
  else if neg_kws.any (fun kw => containsSub kw.data text) then false
  else if pos_kws.any (fun kw => containsSub kw.data text) then true
  else false

/-- The classifier `_valid` of lines 160-221. -/
def _valid (p : paper_info) : Bool := classifyText (validText p)

/-! ### FetchOrchestrator: `_download` and `download_missing_pdf` (lines 69-97) -/

/-- Fetch worker `_download`, lines 69-78: one `wget` attempt per task,
returning `None` on success and the paper itself on any exception.  The
network is an oracle `fetchOk` saying whether the fetch of a paper
succeeds. -/
def _download (fetchOk : paper_info → Bool) (args : Nat × Nat × paper_info) :
    Option paper_info :=
  if fetchOk args.2.2 then none else some args.2.2

/-- Papers whose `pdf_path` is not an existing file, lines 83-85.  The
filesystem is an oracle `isfile`. -/
def missingList (isfile : List Char → Bool) (papers : List paper_info) :
    List paper_info :=
  papers.filter (fun p => !(isfile (pdf_path p)))

/-- Task list built in lines 90-91: `(index, total, paper)` for each missing
paper. -/
def downloadTasks (isfile : List Char → Bool) (papers : List paper_info) :
    List (Nat × Nat × paper_info) :=
  let missing := missingList isfile papers
  let total := missing.length
  missing.enum.map (fun ip => (ip.1, total, ip.2))

/-- Value of `failed_list` in line 92: `track_parallel_progress` returns the
result of `_download` for every task, so the list has one entry per task,
`none` for a fetch that succeeded and `some paper` for one that failed.
With `keep_order=False` the real list comes back in completion order; this
is the input-order representative of that permutation class. -/
def failed_list (isfile : List Char → Bool) (fetchOk : paper_info → Bool)
    (papers : List paper_info) : List (Option paper_info) :=
  (downloadTasks isfile papers).map (_download fetchOk)

/-- Persistence step, lines 94-97: the pickle of `failed_list` is written iff
the list is truthy, i.e. non-empty. -/
def persistedFailureList (isfile : List Char → Bool)
    (fetchOk : paper_info → Bool) (papers : List paper_info) :
    Option (List (Option paper_info)) :=
  let fl := failed_list isfile fetchOk papers
  if fl.isEmpty then none else some fl

/-! ### KeywordGroupMatcher: `search_kwgroups_in_pdf` (lines 100-145) -/

/-- Outcome of `pdfplumber.open`: either the `PDFSyntaxError` that line 142
catches, or a document whose pages each yield `page.extract_text()` -
a string, or `None` when no text is extractable from the page. -/
inductive PdfOpenResult where
  | parseFailure : PdfOpenResult
  | ok : List (Option (List Char)) → PdfOpenResult

/-- Python exceptions that are NOT caught by the `except PDFSyntaxError`
handler and therefore escape `search_kwgroups_in_pdf`:
`attributeError` from `None.lower()` (line 132 on a text-less page) and
`typeError` from `kw in None` (line 139 when case-sensitive). -/
inductive PyError where
  | attributeError : PyError
  | typeError : PyError
deriving DecidableEq

/-- Keyword lower-casing of lines 116-120: applied to every group once,
before the scan, when matching is case-insensitive. -/
def normGroups (case_sensitive : Bool) (kwgs : List (String × List (List Char))) :
    List (String × List (List Char)) :=
  if case_sensitive then kwgs
  else kwgs.map (fun g => (g.1, g.2.map pyLower))

/-- Initial result dict of line 122: every group name mapped to `False`. -/
def initResult (kwgs : List (String × List (List Char))) : List (String × Bool) :=
  kwgs.map (fun g => (g.1, false))

/-- Lines 130-132: take the page's extracted text; when case-insensitive,
`text.lower()` raises `AttributeError` if `extract_text()` returned `None`. -/
def pageText (case_sensitive : Bool) :
    Option (List Char) → Except PyError (Option (List Char))
  | none => if case_sensitive then .ok none else .error .attributeError
  | some t => .ok (some (if case_sensitive then t else pyLower t))

/-- Inner keyword loop of lines 138-141: first keyword found in the text
makes the group true; `kw in None` (possible only when case-sensitive)
raises `TypeError`. -/
def scanGroup (text : Option (List Char)) : List (List Char) → Except PyError Bool
  | [] => .ok false
  | kw :: rest =>
    match text with
    | none => .error .typeError
    | some t => if containsSub kw t then .ok true else scanGroup (some t) rest

/-- Group loop of lines 134-141 over one page: a group already true is
skipped (`continue`), otherwise its keywords are scanned.  The result dict
and the group dict are built from the same keys in the same order
(line 122), so the dict lookup `result[name]` is positional here. -/
def scanPage (text : Option (List Char)) :
    List (String × List (List Char)) → List (String × Bool) →
    Except PyError (List (String × Bool))
  | [], res => .ok res
  | _ :: _, [] => .ok []
  | (_, group) :: kwgs, (rname, rval) :: res =>
    if rval then
      (scanPage text kwgs res).map (fun rest => (rname, rval) :: rest)
    else
      (scanGroup text group).bind (fun b =>
        (scanPage text kwgs res).map (fun rest => (rname, b) :: rest))

/-- Page loop of lines 126-141: before each page, `all(result.values())`
breaks out of the loop; otherwise the page text is taken and every
unresolved group scanned. -/
def scanPages (case_sensitive : Bool) (kwgs : List (String × List (List Char))) :
    List (Option (List Char)) → List (String × Bool) →
    Except PyError (List (String × Bool))
  | [], res => .ok res
  | page :: rest, res =>
    if res.all (fun g => g.2) then .ok res
    else
      (pageText case_sensitive page).bind (fun text =>
        (scanPage text kwgs res).bind (fun res2 =>
          scanPages case_sensitive kwgs rest res2))

/-- The matcher `search_kwgroups_in_pdf`, lines 100-145.  A missing file
skips the scan; a `PDFSyntaxError` at open is caught (logged, line 143)
and the current all-false result returned; any `PyError` raised inside the
scan is not caught and escapes as `.error`. -/
def search_kwgroups_in_pdf (isfile : List Char → Bool)
    (openPdf : List Char → PdfOpenResult) (path : List Char)
    (keyword_groups : List (String × List (List Char)))
    (case_sensitive : Bool) : Except PyError (List (String × Bool)) :=
  let kwgs := normGroups case_sensitive keyword_groups
  let result := initResult kwgs
  if isfile path then
    match openPdf path with
    | .parseFailure => .ok result
    | .ok pages => scanPages case_sensitive kwgs pages result
  else .ok result

/-- Dict lookup in a result map: the value stored under a group name. -/
def lookupB (res : List (String × Bool)) (name : String) : Option Bool :=
  (res.find? (fun g => g.1 == name)).map Prod.snd

/-! ### Pipeline relevance flag (main, lines 261-277) -/

/-- Overall document-relevance flag of lines 263-273: starting from `False`,
OR-in every `_pos`-prefixed group's value, then AND-in the complement of
every `_neg`-prefixed group's value (the Python `relevant &= (~b)` on a
bool is bitwise on ints but agrees with boolean AND-NOT on truthiness). -/
def overallRelevant (result : List (String × Bool)) : Bool :=
  let posVals := (result.filter (fun g => matchesAt "_pos".data g.1.data)).map Prod.snd
  let negVals := (result.filter (fun g => matchesAt "_neg".data g.1.data)).map Prod.snd
  negVals.foldl (fun r b => r && !b) (posVals.foldl (fun r b => r || b) false)

/-! ### Helper lemmas -/

theorem except_bind_ok {ε α β : Type} {e : Except ε α} {f : α → Except ε β} {b : β} :
    e.bind f = .ok b ↔ ∃ a, e = .ok a ∧ f a = .ok b := by
  cases e <;> simp [Except.bind]

theorem except_map_ok {ε α β : Type} {e : Except ε α} {f : α → β} {b : β} :
    e.map f = .ok b ↔ ∃ a, e = .ok a ∧ f a = b := by
  cases e <;> simp [Except.map]

theorem initResult_normGroups (cs : Bool) (kwgs : List (String × List (List Char))) :
    initResult (normGroups cs kwgs) = kwgs.map (fun g => (g.1, false)) := by
  cases cs <;> simp [initResult, normGroups]

/-! ### C1: strong-positive tier short-circuits the negative tier -/

/-- Paper used as the spec's worked example for tier priority. -/
def spatioTemporalPaper : paper_info :=
  { title := "Spatio-temporal Action Detection via Interaction Modeling",
    conference := "CVPR", authors := "A. Author", year := "2023" }

/-- C1: whenever the combined lower-cased title+abstract text of a record
contains at least one strong-positive keyword, `_valid` returns true -
tier 1 is checked first and short-circuits the negative tier, so the
presence of negative keywords in the same text is irrelevant. -/
theorem strong_pos_short_circuits (p : paper_info)
    (h : ∃ kw ∈ strong_pos_kws, containsSub kw.data (validText p) = true) :
    _valid p = true := by
  obtain ⟨kw, hkw, hc⟩ := h
  have hany : strong_pos_kws.any (fun kw => containsSub kw.data (validText p)) = true :=
    List.any_eq_true.mpr ⟨kw, hkw, hc⟩
  simp [_valid, classifyText, hany]

/-- Witness for C1: the title "Spatio-temporal Action Detection via
Interaction Modeling" contains the strong-positive "action detection" and
the negative "interaction", and classifies as relevant. -/
theorem strong_pos_short_circuits_witness :
    containsSub "action detection".data (validText spatioTemporalPaper) = true
    ∧ ("interaction" ∈ neg_kws
        ∧ containsSub "interaction".data (validText spatioTemporalPaper) = true)
    ∧ _valid spatioTemporalPaper = true :=
  ⟨by decide, ⟨by decide, by decide⟩,
    strong_pos_short_circuits spatioTemporalPaper
      ⟨"action detection", by decide, by decide⟩⟩

/-! ### C9: missing commas concatenate strong-positive literals -/

/-- Paper whose title is exactly the benchmark name swallowed by the
missing-comma concatenation. -/
def k400Paper : paper_info :=
  { title := "kinetics-400", conference := "CVPR", authors := "A", year := "2023" }

/-- C9: adjacent string literals with missing commas in the source are
concatenated by Python, so "kinetics-400" is not itself an effective
strong-positive keyword (only the fused
"action quality assessmentkinetics-400" is); a paper titled exactly
"kinetics-400" with no abstract matches no keyword of any tier and is
classified not relevant. -/
theorem comma_slip_kinetics400_not_relevant :
    (strong_pos_kws.contains "action quality assessmentkinetics-400" = true
      ∧ strong_pos_kws.contains "kinetics-400" = false)
    ∧ (strong_pos_kws.all
          (fun kw => !(containsSub kw.data (validText k400Paper))) = true
      ∧ neg_kws.all
          (fun kw => !(containsSub kw.data (validText k400Paper))) = true
      ∧ pos_kws.all
          (fun kw => !(containsSub kw.data (validText k400Paper))) = true)
    ∧ _valid k400Paper = false := by
  decide

/-! ### C8: the derived path is a pure function of (conference, year, title) -/

/-- C8: `pdf_path` reads only the `conference`, `year` and `title` fields,
so any two records that agree on that triple get the identical path, and
recomputation is deterministic. -/
theorem pdf_path_pure_in_triple (p q : paper_info)
    (hc : p.conference = q.conference) (hy : p.year = q.year)
    (ht : p.title = q.title) : pdf_path p = pdf_path q := by
  simp [pdf_path, hc, hy, ht]

/-- First record of the C8 witness collision pair. -/
def slashTitlePaperX : paper_info :=
  { title := "A/B", conference := "CVPR", authors := "X", year := "2023",
    abstract := some "s" }

/-- Second record of the C8 witness collision pair: same (conference, year,
title), different authors and abstract. -/
def slashTitlePaperY : paper_info :=
  { title := "A/B", conference := "CVPR", authors := "Y", year := "2023" }

/-- Witness for C8: two records sharing (conference, year, title) but
differing in authors and abstract collide on the same path, in which the
slash of the title has been replaced by a space. -/
theorem pdf_path_pure_in_triple_witness :
    pdf_path slashTitlePaperX = pdf_path slashTitlePaperY
    ∧ pdf_path slashTitlePaperX = "data/CVPR2023/A B.pdf".data :=
  ⟨pdf_path_pure_in_triple _ _ rfl rfl rfl, by decide⟩

/-! ### C6: no re-fetch when every destination file exists -/

/-- C6: when every record's derived path is already a file, the missing
list is empty, no download task is created, and the worker output list is
empty whatever the network would have answered. -/
theorem all_present_no_fetch (isfile : List Char → Bool)
    (papers : List paper_info)
    (h : ∀ p ∈ papers, isfile (pdf_path p) = true) :
    missingList isfile papers = [] ∧ downloadTasks isfile papers = []
      ∧ ∀ fetchOk, failed_list isfile fetchOk papers = [] := by
  have hm : missingList isfile papers = [] := by
    simp only [missingList, List.filter_eq_nil_iff]
    intro p hp
    simp [h p hp]
  refine ⟨hm, ?_, ?_⟩
  · simp [downloadTasks, hm]
  · intro fetchOk
    simp [failed_list, downloadTasks, hm]

/-- Witness for C6: one record whose file exists produces no task. -/
theorem all_present_no_fetch_witness :
    missingList (fun _ => true)
        [{ title := "T", conference := "CVPR", authors := "A", year := "2023" }] = []
    ∧ downloadTasks (fun _ => true)
        [{ title := "T", conference := "CVPR", authors := "A", year := "2023" }] = []
    ∧ ∀ fetchOk, failed_list (fun _ => true) fetchOk
        [{ title := "T", conference := "CVPR", authors := "A", year := "2023" }] = [] :=
  all_present_no_fetch (fun _ => true) _ (fun _ _ => rfl)

/-! ### C2: the persisted failure list keeps placeholders for successes -/

/-- Paper whose fetch succeeds in the C2 failing input. -/
def fetchOkPaper : paper_info :=
  { title := "t1", conference := "CVPR", authors := "A", year := "2023",
    pdf_url := some "u1" }

/-- Paper whose fetch fails in the C2 failing input. -/
def fetchFailPaper : paper_info :=
  { title := "t2", conference := "CVPR", authors := "B", year := "2023",
    pdf_url := some "u2" }

/-- C2, evaluated at the failing input: with two missing papers of which
the first downloads fine and the second fails, the pickled `failed_list`
is `[None, paper2]` - it records an entry (`None`) for the successful
fetch as well, because `track_parallel_progress` returns the worker result
of every task and line 92 stores that list unfiltered. -/
theorem failed_list_keeps_success_entries :
    persistedFailureList (fun _ => false) (fun p => p.title == "t1")
        [fetchOkPaper, fetchFailPaper]
      = some [none, some fetchFailPaper] := by
  decide

/-! ### C7: overall relevance flag is OR of positives AND no negative hit -/

theorem foldl_or_eq (l : List Bool) (init : Bool) :
    l.foldl (fun r b => r || b) init = (init || l.any id) := by
  induction l generalizing init with
  | nil => simp
  | cons a l ih => simp [List.foldl_cons, ih, Bool.or_assoc]

theorem foldl_and_not_eq (l : List Bool) (init : Bool) :
    l.foldl (fun r b => r && !b) init = (init && l.all (fun b => !b)) := by
  induction l generalizing init with
  | nil => simp
  | cons a l ih => simp [List.foldl_cons, ih, Bool.and_assoc]

theorem any_filter_map_snd (l : List (String × Bool)) (p : String × Bool → Bool) :
    ((l.filter p).map Prod.snd).any id = l.any (fun g => p g && g.2) := by
  induction l with
  | nil => rfl
  | cons a l ih =>
    by_cases hp : p a = true <;>
      simp [List.filter_cons, hp, List.any_cons, ih]

theorem all_filter_map_snd (l : List (String × Bool)) (p : String × Bool → Bool) :
    ((l.filter p).map Prod.snd).all (fun b => !b) = l.all (fun g => !(p g && g.2)) := by
  induction l with
  | nil => rfl
  | cons a l ih =>
    by_cases hp : p a = true <;>
      simp [List.filter_cons, hp, List.all_cons, ih]

/-- C7: the pipeline's overall document-relevance flag equals the OR of all
`_pos`-prefixed group booleans AND-ed with the negation of every
`_neg`-prefixed group boolean: it is true exactly when at least one
positive group is hit and no negative group is hit. -/
theorem overallRelevant_characterization (result : List (String × Bool)) :
    overallRelevant result =
      ((result.any fun g => matchesAt "_pos".data g.1.data && g.2) &&
        (result.all fun g => !(matchesAt "_neg".data g.1.data && g.2))) := by
  simp [overallRelevant, foldl_or_eq, foldl_and_not_eq, any_filter_map_snd,
    all_filter_map_snd]

/-! ### Matcher lemmas shared by C3, C4, C5, C10 -/

theorem scanPages_of_all_true {cs : Bool} {kwgs : List (String × List (List Char))}
    {pages : List (Option (List Char))} {res : List (String × Bool)}
    (h : res.all (fun g => g.2) = true) :
    scanPages cs kwgs pages res = .ok res := by
  cases pages <;> simp [scanPages, h]

theorem scanPage_of_all_true {t : Option (List Char)}
    {kwgs : List (String × List (List Char))} {res : List (String × Bool)}
    (h : res.all (fun g => g.2) = true) :
    scanPage t kwgs res = .ok res := by
  induction kwgs generalizing res with
  | nil => rfl
  | cons g kwgs ih =>
    obtain ⟨gn, group⟩ := g
    match res with
    | [] => rfl
    | (rname, rval) :: res =>
      simp only [List.all_cons, Bool.and_eq_true] at h
      obtain ⟨hv, hres⟩ := h
      simp [scanPage, hv, ih hres, Except.map]

/-! ### C10: a missing file yields all-false without opening the document -/

/-- C10: when the path is not an existing file, the matcher returns (never
raises) a mapping whose keys are exactly the group names, each mapped to
false; the `openPdf` capability is universally quantified, so the result
holds even for a document whose first page would raise - the document is
never opened. -/
theorem no_file_all_false (isfile : List Char → Bool)
    (openPdf : List Char → PdfOpenResult) (path : List Char)
    (kwgs : List (String × List (List Char))) (cs : Bool)
    (h : isfile path = false) :
    search_kwgroups_in_pdf isfile openPdf path kwgs cs
      = .ok (kwgs.map (fun g => (g.1, false))) := by
  simp [search_kwgroups_in_pdf, h, initResult_normGroups]

/-- Witness for C10: a one-group mapping on an absent file comes back all
false although the open oracle would have produced a poisonous page. -/
theorem no_file_all_false_witness :
    search_kwgroups_in_pdf (fun _ => false) (fun _ => .ok [none]) "p".data
      [("g", ["kw".data])] false = .ok [("g", false)] :=
  no_file_all_false (fun _ => false) (fun _ => .ok [none]) "p".data
    [("g", ["kw".data])] false rfl

/-! ### C3: which parse failures the matcher absorbs -/

/-- Counterexample to C3: a document that opens but whose only page has no
extractable text (`extract_text()` returns `None`) makes line 132 call
`None.lower()`; the resulting `AttributeError` is not a `PDFSyntaxError`,
so it escapes the matcher instead of yielding an all-false mapping. -/
theorem text_extraction_failure_escapes :
    search_kwgroups_in_pdf (fun _ => true) (fun _ => .ok [none]) "x".data
      [("g", ["kw".data])] false = .error .attributeError := by rfl

/-- C3 amended: only a `PDFSyntaxError` raised when the document is opened
is caught (and logged); in that case every group resolves to false and no
exception escapes.  Failures of per-page text extraction are not caught
and propagate out of the matcher. -/
theorem open_parse_failure_all_false (isfile : List Char → Bool)
    (openPdf : List Char → PdfOpenResult) (path : List Char)
    (kwgs : List (String × List (List Char))) (cs : Bool)
    (h : openPdf path = .parseFailure) :
    search_kwgroups_in_pdf isfile openPdf path kwgs cs
      = .ok (kwgs.map (fun g => (g.1, false))) := by
  cases hf : isfile path <;>
    simp [search_kwgroups_in_pdf, hf, h, initResult_normGroups]

/-- Witness for C3 (amended): a syntactically broken document yields the
all-false mapping for its group set. -/
theorem open_parse_failure_all_false_witness :
    search_kwgroups_in_pdf (fun _ => true) (fun _ => .parseFailure) "x".data
      [("g", ["kw".data])] false = .ok [("g", false)] :=
  open_parse_failure_all_false (fun _ => true) (fun _ => .parseFailure) "x".data
    [("g", ["kw".data])] false rfl

/-! ### C4: early termination once every group is true -/

theorem scanPages_first_page {cs : Bool} {kwgs : List (String × List (List Char))}
    {p : Option (List Char)} {rest : List (Option (List Char))}
    {res r1 : List (String × Bool)}
    (hstep : (pageText cs p).bind (fun t => scanPage t kwgs res) = .ok r1)
    (hall : r1.all (fun g => g.2) = true) :
    scanPages cs kwgs (p :: rest) res = .ok r1 := by
  obtain ⟨t, hpt, hsp⟩ := except_bind_ok.mp hstep
  by_cases h0 : res.all (fun g => g.2) = true
  · have hres : scanPage t kwgs res = .ok res := scanPage_of_all_true h0
    rw [hres] at hsp
    cases hsp
    simp [scanPages, h0]
  · simp only [scanPages, h0, if_neg, Bool.not_eq_true]
    rw [hpt]
    simp only [Except.bind]
    rw [hsp]
    simp only [Except.bind]
    exact scanPages_of_all_true hall

/-- C4: if scanning page 1 leaves every group true, the matcher's overall
result is exactly that page-1 result for every possible continuation of
the document - pages 2..N are universally quantified, including pages
whose extraction would raise, so they are never extracted or inspected. -/
theorem early_termination_after_page_one
    (kwgs : List (String × List (List Char))) (cs : Bool)
    (p : Option (List Char)) (rest : List (Option (List Char)))
    (path : List Char) (r1 : List (String × Bool))
    (hscan : (pageText cs p).bind
        (fun t => scanPage t (normGroups cs kwgs) (initResult (normGroups cs kwgs)))
        = .ok r1)
    (hall : r1.all (fun g => g.2) = true) :
    search_kwgroups_in_pdf (fun _ => true) (fun _ => .ok (p :: rest)) path kwgs cs
      = .ok r1 := by
  simp only [search_kwgroups_in_pdf, if_pos]
  exact scanPages_first_page hscan hall

/-- Witness for C4: a single group satisfied on page 1 fixes the result
even though page 2 would have raised on extraction. -/
theorem early_termination_after_page_one_witness :
    search_kwgroups_in_pdf (fun _ => true)
        (fun _ => .ok [some "A".data, none]) "x".data
      [("g", ["a".data])] false = .ok [("g", true)] :=
  early_termination_after_page_one [("g", ["a".data])] false (some "A".data)
    [none] "x".data [("g", true)] rfl rfl

/-! ### C5: a group marked true never flips back to false -/

/-- Step relation between result maps: the group name at each position is
unchanged and a group already true stays true. -/
def KeepsTrue (a b : String × Bool) : Prop := a.1 = b.1 ∧ (a.2 = true → b.2 = true)

theorem scanPage_keepsTrue {t : Option (List Char)}
    {kwgs : List (String × List (List Char))} {res res' : List (String × Bool)}
    (h : scanPage t kwgs res = .ok res') : List.Forall₂ KeepsTrue res res' := by
  induction kwgs generalizing res res' with
  | nil =>
    cases h
    exact List.forall₂_same.mpr (fun x _ => ⟨rfl, id⟩)
  | cons g kwgs ih =>
    obtain ⟨gn, group⟩ := g
    match res with
    | [] =>
      cases h
      exact List.Forall₂.nil
    | (rname, rval) :: res =>
      cases rval with
      | true =>
        simp only [scanPage, if_true] at h
        obtain ⟨rest', hrest, hcons⟩ := except_map_ok.mp h
        subst hcons
        exact List.Forall₂.cons ⟨rfl, id⟩ (ih hrest)
      | false =>
        simp only [scanPage, Bool.false_eq_true, if_false] at h
        obtain ⟨b, _, hmap⟩ := except_bind_ok.mp h
        obtain ⟨rest', hrest, hcons⟩ := except_map_ok.mp hmap
        subst hcons
        exact List.Forall₂.cons ⟨rfl, fun hf => absurd hf Bool.false_ne_true⟩
          (ih hrest)

theorem keepsTrue_trans {a b c : List (String × Bool)}
    (h1 : List.Forall₂ KeepsTrue a b) (h2 : List.Forall₂ KeepsTrue b c) :
    List.Forall₂ KeepsTrue a c := by
  induction h1 generalizing c with
  | nil =>
    cases h2
    exact .nil
  | cons hab h1' ih =>
    cases h2 with
    | cons hbc h2' =>
      exact .cons ⟨hab.1.trans hbc.1, fun ht => hbc.2 (hab.2 ht)⟩ (ih h2')

theorem scanPages_keepsTrue {cs : Bool} {kwgs : List (String × List (List Char))}
    {pages : List (Option (List Char))} {res res' : List (String × Bool)}
    (h : scanPages cs kwgs pages res = .ok res') :
    List.Forall₂ KeepsTrue res res' := by
  induction pages generalizing res with
  | nil =>
    cases h
    exact List.forall₂_same.mpr (fun x _ => ⟨rfl, id⟩)
  | cons page rest ih =>
    by_cases h0 : res.all (fun g => g.2) = true
    · have := (@scanPages_of_all_true cs kwgs (page :: rest) res h0).symm.trans h
      cases this
      exact List.forall₂_same.mpr (fun x _ => ⟨rfl, id⟩)
    · simp only [scanPages, h0, if_neg, Bool.not_eq_true] at h
      obtain ⟨t, hpt, h1⟩ := except_bind_ok.mp h
      obtain ⟨r2, hsp, h2⟩ := except_bind_ok.mp h1
      exact keepsTrue_trans (scanPage_keepsTrue hsp) (ih h2)

theorem lookupB_keepsTrue {res res' : List (String × Bool)} {g : String}
    (h : List.Forall₂ KeepsTrue res res') (ht : lookupB res g = some true) :
    lookupB res' g = some true := by
  induction h with
  | nil => simp [lookupB] at ht
  | @cons a b l1 l2 hab htl ih =>
    obtain ⟨hk, hv⟩ := hab
    by_cases hg : (a.1 == g) = true
    · have hbg : (b.1 == g) = true := by rw [← hk]; exact hg
      simp only [lookupB, List.find?, hg, hbg, Option.map_some] at ht ⊢
      exact congrArg some (hv (Option.some.inj ht))
    · rw [Bool.not_eq_true] at hg
      have hbg : (b.1 == g) = false := by rw [← hk]; exact hg
      simp only [lookupB, List.find?, hg, hbg] at ht ⊢
      exact ih ht

theorem scanPages_append (cs : Bool) (kwgs : List (String × List (List Char)))
    (front back : List (Option (List Char))) (res : List (String × Bool)) :
    scanPages cs kwgs (front ++ back) res
      = (scanPages cs kwgs front res).bind (fun r => scanPages cs kwgs back r) := by
  induction front generalizing res with
  | nil => simp [scanPages, Except.bind]
  | cons p f ih =>
    by_cases h0 : res.all (fun g => g.2) = true
    · simp [scanPages_of_all_true h0, Except.bind]
    · simp only [List.cons_append, scanPages, h0, if_neg, Bool.not_eq_true]
      cases hpt : pageText cs p with
      | error e => simp [Except.bind]
      | ok t =>
        simp only [Except.bind]
        cases hsp : scanPage t kwgs res with
        | error e => simp [Except.bind]
        | ok r2 =>
          simp only [Except.bind]
          exact ih r2

/-- C5: once a group is marked true after some page of the scan, it is
still true in the matcher's final result whatever the remaining pages
contain - the per-group result is a monotone OR-accumulation over pages
and never flips from true back to false. -/
theorem group_hit_monotone (kwgs : List (String × List (List Char))) (cs : Bool)
    (front back : List (Option (List Char))) (g : String) (path : List Char)
    (res_mid res_fin : List (String × Bool))
    (hmid : scanPages cs (normGroups cs kwgs) front (initResult (normGroups cs kwgs))
        = .ok res_mid)
    (hg : lookupB res_mid g = some true)
    (hfin : search_kwgroups_in_pdf (fun _ => true) (fun _ => .ok (front ++ back))
        path kwgs cs = .ok res_fin) :
    lookupB res_fin g = some true := by
  simp only [search_kwgroups_in_pdf, if_pos] at hfin
  rw [scanPages_append, hmid] at hfin
  simp only [Except.bind] at hfin
  exact lookupB_keepsTrue (scanPages_keepsTrue hfin) hg

/-- Witness for C5: the group hit on page 1 survives a page 2 that does not
contain any of its keywords. -/
theorem group_hit_monotone_witness :
    search_kwgroups_in_pdf (fun _ => true)
        (fun _ => .ok [some "a".data, some "b".data]) "x".data
        [("g", ["a".data])] false = .ok [("g", true)]
    ∧ lookupB [("g", true)] "g" = some true :=
  ⟨rfl, group_hit_monotone [("g", ["a".data])] false [some "a".data]
      [some "b".data] "g" "x".data [("g", true)] [("g", true)] rfl rfl rfl⟩
